import Mathlib

/-!
Verification of the Google Drive extractor (`youtube_dl/extractor/googledrive.py`).

The extractor's `_real_extract` is embedded as a pure function of the two
fetched documents (the metadata webpage and the download-probe response).
Python's `re.search` is embedded by a small backtracking matcher over the
exact token sequences of the source's patterns; `str.split` is embedded with
Python semantics (split on every occurrence, keeping empty segments).
Unhandled Python exceptions (ValueError from tuple unpacking, IndexError from
list indexing, KeyError from dict lookup) are modelled as explicit error
constructors, kept distinct from the deliberately raised `ExtractorError` and
from the `RegexNotFoundError` of a required-field search.
-/

/-- Outcomes that abort extraction.  `extractorError` models a deliberately
raised `ExtractorError` (line 77 of the source); `regexNotFound` models the
`RegexNotFoundError` raised by `_search_regex` for a required field;
`keyError`, `valueError` and `indexError` model the unhandled Python
exceptions `KeyError` (dict lookup miss, carrying the key), `ValueError`
(tuple-unpack arity mismatch) and `IndexError` (list index out of range). -/
inductive ExtractError where
  | extractorError (msg : String)
  | regexNotFound (name : String)
  | keyError (key : String)
  | valueError (msg : String)
  | indexError
deriving DecidableEq

/-- Tokens of the regex dialect actually used by the source's patterns:
literal strings, greedy star of a character class, a single capturing group
that is a greedy plus of a character class, and the `$` anchor. -/
inductive Tok where
  | lit (cs : List Char)
  | star (neg : Bool) (cls : List Char)
  | grp (neg : Bool) (cls : List Char)
  | eos
deriving DecidableEq

/-- Membership of a character in a (possibly negated) character class. -/
def charIn (c : Char) (neg : Bool) (cls : List Char) : Bool :=
  if neg then !(cls.contains c) else cls.contains c

/-- Strips a literal prefix, returning the remainder on success. -/
def stripLit : List Char → List Char → Option (List Char)
  | [], cs => some cs
  | _ :: _, [] => none
  | l :: ls, c :: cs => if c = l then stripLit ls cs else none

/-- Greedy star over a character class with backtracking: consume as many
class characters as possible, then retreat one at a time until the
continuation `k` succeeds on the remainder. -/
def starLoop (neg : Bool) (cls : List Char) (k : List Char → Option (List Char)) :
    List Char → Option (List Char)
  | [] => k []
  | c :: cs =>
    if charIn c neg cls then
      match starLoop neg cls k cs with
      | some g => some g
      | none => k (c :: cs)
    else k (c :: cs)

/-- Greedy continuation of a capturing group (a plus of a character class):
like `starLoop` but accumulating the consumed characters in reverse; the
continuation receives the reversed capture so far and the remainder. -/
def grpLoop (neg : Bool) (cls : List Char) (k : List Char → List Char → Option (List Char))
    (rev : List Char) : List Char → Option (List Char)
  | [] => k rev []
  | c :: cs =>
    if charIn c neg cls then
      match grpLoop neg cls k (c :: rev) cs with
      | some g => some g
      | none => k rev (c :: cs)
    else k rev (c :: cs)

/-- Matches a token sequence at the start of the input, Python `re` style
(greedy with backtracking); returns the text of the capturing group on
success.  `acc` carries the capture once the group has matched. -/
def matchToks : List Tok → Option (List Char) → List Char → Option (List Char)
  | [], acc, _ => some (acc.getD [])
  | Tok.lit l :: ts, acc, cs =>
    match stripLit l cs with
    | some rest => matchToks ts acc rest
    | none => none
  | Tok.star neg cls :: ts, acc, cs =>
    starLoop neg cls (fun rest => matchToks ts acc rest) cs
  | Tok.grp neg cls :: ts, _acc, cs =>
    match cs with
    | [] => none
    | c :: cs2 =>
      if charIn c neg cls then
        grpLoop neg cls (fun rev rest => matchToks ts (some rev.reverse) rest) [c] cs2
      else none
  | Tok.eos :: ts, acc, cs =>
    if cs = [] ∨ cs = ['\n'] then matchToks ts acc cs else none

/-- Leftmost search, as `re.search`: try a match at each start position from
the left, returning the first success's capture. -/
def reSearch (ts : List Tok) : List Char → Option (List Char)
  | [] => matchToks ts none []
  | c :: cs =>
    match matchToks ts none (c :: cs) with
    | some g => some g
    | none => reSearch ts cs

/-- Python whitespace class `\s` (ASCII part, which is all the source's
inputs use): space, tab, newline, carriage return, vertical tab, form feed. -/
def wsChars : List Char := [' ', '\t', '\n', '\r', Char.ofNat 11, Char.ofNat 12]

/-- The pattern `"<key>"\s*,\s*"([^"]+)` shared by the reason / title /
length_seconds / fmt_stream_map / fmt_list field searches of the source. -/
def fieldPat (key : List Char) : List Tok :=
  [Tok.lit ('"' :: key ++ ['"']), Tok.star false wsChars, Tok.lit [','],
   Tok.star false wsChars, Tok.lit ['"'], Tok.grp true ['"']]

/-- Pattern `"reason"\s*,\s*"([^"]+)` (source line 75). -/
def reasonPat : List Tok := fieldPat "reason".data

/-- Pattern `"title"\s*,\s*"([^"]+)` (source line 79). -/
def titlePat : List Tok := fieldPat "title".data

/-- Pattern `"length_seconds"\s*,\s*"([^"]+)` (source line 81). -/
def lengthSecondsPat : List Tok := fieldPat "length_seconds".data

/-- Pattern `"fmt_stream_map"\s*,\s*"([^"]+)` (source line 83). -/
def fsmPat : List Tok := fieldPat "fmt_stream_map".data

/-- Pattern `"fmt_list"\s*,\s*"([^"]+)` (source line 84). -/
def flPat : List Tok := fieldPat "fmt_list".data

/-- Pattern `confirm=([^&"]+)` searched in the probe response (line 106). -/
def confirmPat : List Tok := [Tok.lit "confirm=".data, Tok.grp true ['&', '"']]

/-- Pattern `"([^"]+)",[^,]*,[^,]*$` for the original extension (line 114). -/
def origExtPat : List Tok :=
  [Tok.lit ['"'], Tok.grp true ['"'], Tok.lit ['"', ','],
   Tok.star true [','], Tok.lit [','], Tok.star true [','], Tok.eos]

/-- Pattern `"([^"]+)"[^"]*\n[^\n]*,[^,]*$` for the original size (line 115). -/
def origSizePat : List Tok :=
  [Tok.lit ['"'], Tok.grp true ['"'], Tok.lit ['"'], Tok.star true ['"'],
   Tok.lit ['\n'], Tok.star true ['\n'], Tok.lit [','], Tok.star true [','], Tok.eos]

/-- Modelled from the spec: `_search_regex(..., default=None)` from the
`InfoExtractor` base class (`extractor/common.py`, not under `src/`): the
first capturing group of the leftmost match, or `none` when the pattern does
not occur (a missing optional field "yields no duration (not an error)"). -/
def searchRegexOpt (ts : List Tok) (s : String) : Option String :=
  (reSearch ts s.data).map (fun g => String.mk g)

/-- Modelled from the spec: `_search_regex` without a default from
`extractor/common.py` (not under `src/`): a required field whose pattern does
not occur "is a hard failure (malformed/unsupported page)", raised as a
`RegexNotFoundError` naming the field. -/
def searchRegexReq (ts : List Tok) (s : String) (name : String) :
    Except ExtractError String :=
  match searchRegexOpt ts s with
  | some v => Except.ok v
  | none => Except.error (ExtractError.regexNotFound name)

/-- Numeric value of a digit string. -/
def digitsVal (cs : List Char) : Nat :=
  cs.foldl (fun n c => n * 10 + (c.toNat - 48)) 0

/-- Modelled from the spec: `int_or_none` from `youtube_dl/utils.py` (not
under `src/`): coerce a decimal string (optionally signed) to an integer,
"non-numeric fields yield absent width/height rather than failure". -/
def int_or_none : Option String → Option Int
  | none => none
  | some s =>
    match s.data with
    | '-' :: rest =>
      if rest ≠ [] ∧ rest.all Char.isDigit then some (-(digitsVal rest : Int)) else none
    | cs =>
      if cs ≠ [] ∧ cs.all Char.isDigit then some ((digitsVal cs : Int)) else none

/-- Python `str.split(sep)` for a one-character separator: splits on every
occurrence, keeping empty segments; the empty string yields `[[]]`. -/
def pySplit (sep : Char) : List Char → List (List Char)
  | [] => [[]]
  | c :: cs =>
    let r := pySplit sep cs
    if c = sep then [] :: r
    else
      match r with
      | h :: t => (c :: h) :: t
      | [] => [[c]]

/-- Python tuple unpacking `a, b = l` of a list into exactly two values;
any other arity raises `ValueError`. -/
def unpack2 (l : List (List Char)) : Except ExtractError (List Char × List Char) :=
  match l with
  | [a, b] => Except.ok (a, b)
  | _ => Except.error (ExtractError.valueError "unpack")

/-- Python list indexing `l[i]`: out of range raises `IndexError`. -/
def pyIndex (l : List (List Char)) (i : Nat) : Except ExtractError (List Char) :=
  match l.get? i with
  | some a => Except.ok a
  | none => Except.error ExtractError.indexError

/-- Python substring membership `needle in haystack`. -/
def containsSeq (needle : List Char) : List Char → Bool
  | [] => needle.isPrefixOf []
  | c :: cs => needle.isPrefixOf (c :: cs) || containsSeq needle cs

/-- The classification test `'html' in downloadPage` (source line 105). -/
def hasHtmlMarker (s : String) : Bool := containsSeq "html".data s.data

/-- The static `_FORMATS_EXT` table of the source (lines 43-60). -/
def FORMATS_EXT : List (String × String) :=
  [("5", "flv"), ("6", "flv"), ("13", "3gp"), ("17", "3gp"), ("18", "mp4"),
   ("22", "mp4"), ("34", "flv"), ("35", "flv"), ("36", "3gp"), ("37", "mp4"),
   ("38", "mp4"), ("43", "webm"), ("44", "webm"), ("45", "webm"),
   ("46", "webm"), ("59", "mp4")]

/-- Dict lookup `self._FORMATS_EXT[fmt_id]` (line 97): a miss raises
`KeyError` carrying the key. -/
def lookupExt (fmt_id : String) : Except ExtractError String :=
  match FORMATS_EXT.lookup fmt_id with
  | some e => Except.ok e
  | none => Except.error (ExtractError.keyError fmt_id)

/-- One entry of the result's `formats` list.  The per-key Python dicts of
the source are unified into one record with optional fields. -/
structure FormatDescriptor where
  url : String
  format_id : String
  resolution : Option String
  width : Option Int
  height : Option Int
  ext : Option String
  filesize : Option Int
  protocol : Option String
deriving DecidableEq

/-- One iteration of the `for fmt, fmt_stream in zip(fmt_list, fmt_stream_map)`
loop body (source lines 87-98), in the source's evaluation order:
`fmt_id, fmt_url = fmt_stream.split('|')`, then
`resolution = fmt.split('/')[1]`, then
`width, height = resolution.split('x')`, then the dict with the
`_FORMATS_EXT[fmt_id]` lookup. -/
def buildFormat (p : String × String) : Except ExtractError FormatDescriptor :=
  match unpack2 (pySplit '|' p.2.data) with
  | Except.error e => Except.error e
  | Except.ok (fmt_id, fmt_url) =>
    match pyIndex (pySplit '/' p.1.data) 1 with
    | Except.error e => Except.error e
    | Except.ok resolution =>
      match unpack2 (pySplit 'x' resolution) with
      | Except.error e => Except.error e
      | Except.ok (width, height) =>
        match lookupExt (String.mk fmt_id) with
        | Except.error e => Except.error e
        | Except.ok extV =>
          Except.ok
            { url := String.mk fmt_url, format_id := String.mk fmt_id,
              resolution := some (String.mk resolution),
              width := int_or_none (some (String.mk width)),
              height := int_or_none (some (String.mk height)),
              ext := some extV, filesize := none, protocol := none }

/-- The whole format loop (lines 86-98): entries are appended in input order
and the first failing entry aborts the loop. -/
def buildFormats : List (String × String) → Except ExtractError (List FormatDescriptor)
  | [] => Except.ok []
  | p :: ps =>
    match buildFormat p with
    | Except.error e => Except.error e
    | Except.ok s =>
      match buildFormats ps with
      | Except.error e => Except.error e
      | Except.ok rest => Except.ok (s :: rest)

/-- The positional pairing `zip(fmt_list, fmt_stream_map)` followed by the
format loop. -/
def parseFormats (fmt_list fmt_stream_map : List String) :
    Except ExtractError (List FormatDescriptor) :=
  buildFormats (fmt_list.zip fmt_stream_map)

/-- The direct-download endpoint URL probed for an identifier (lines 104 and
112 build the same string). -/
def directDownloadUrl (videoId : String) : String :=
  "https://docs.google.com/uc?export=download&id=" ++ videoId

/-- The retried download URL carrying the confirmation token (line 108). -/
def confirmDownloadUrl (confirm videoId : String) : String :=
  "https://docs.google.com/uc?export=download&confirm=" ++ confirm ++ "&id=" ++ videoId

/-- The probe classification of lines 105-113: a body with no `html` marker
is the binary payload and the probed URL itself is the download URL; an HTML
body with a `confirm=` token yields the token-carrying URL; an HTML body
without a token leaves the file not downloadable (`none`). -/
def resolveDownload (videoId downloadPage : String) : Option String :=
  if hasHtmlMarker downloadPage then
    match searchRegexOpt confirmPat downloadPage with
    | some confirm => some (confirmDownloadUrl confirm videoId)
    | none => none
  else some (directDownloadUrl videoId)

/-- The original-file entry appended when the download URL resolves (lines
114-121); extension and size are best-effort parses from the metadata
webpage. -/
def originalFormat (dlstring : String) (webpage : String) : FormatDescriptor :=
  { url := dlstring, format_id := "Original", resolution := none,
    width := none, height := none,
    ext := searchRegexOpt origExtPat webpage,
    filesize := int_or_none (searchRegexOpt origSizePat webpage),
    protocol := some "https" }

/-- The formats list as assembled by lines 99-121: the sorted stream entries,
with the original-file entry appended last when the download resolves. -/
def assembleFormats (sortF : List FormatDescriptor → List FormatDescriptor)
    (videoId downloadPage webpage : String) (streams : List FormatDescriptor) :
    List FormatDescriptor :=
  match resolveDownload videoId downloadPage with
  | some dlstring => sortF streams ++ [originalFormat dlstring webpage]
  | none => sortF streams

/-- The extraction result dict (lines 123-129). -/
structure ExtractionResult where
  id : String
  title : String
  thumbnail : Option String
  duration : Option Int
  formats : List FormatDescriptor
deriving DecidableEq

/-- The body of `GoogleDriveIE._real_extract` (lines 71-129) as a pure
function of the two fetched documents.  `sortF` stands for the out-of-scope
`_sort_formats` collaborator (a reordering policy applied to the stream
entries before the original-file entry is appended) and `th` for the
out-of-scope `_og_search_thumbnail(webpage, default=None)` result; both live
in `extractor/common.py`, outside `src/`. -/
def real_extract (sortF : List FormatDescriptor → List FormatDescriptor)
    (videoId webpage downloadPage : String) (th : Option String) :
    Except ExtractError ExtractionResult :=
  match searchRegexOpt reasonPat webpage with
  | some reason => Except.error (ExtractError.extractorError reason)
  | none =>
    match searchRegexReq titlePat webpage "title" with
    | Except.error e => Except.error e
    | Except.ok title =>
      match searchRegexReq fsmPat webpage "fmt stream map" with
      | Except.error e => Except.error e
      | Except.ok fsm =>
        match searchRegexReq flPat webpage "fmt_list" with
        | Except.error e => Except.error e
        | Except.ok fl =>
          match parseFormats ((pySplit ',' fl.data).map String.mk)
              ((pySplit ',' fsm.data).map String.mk) with
          | Except.error e => Except.error e
          | Except.ok streams =>
            Except.ok
              { id := videoId, title := title, thumbnail := th,
                duration := int_or_none (searchRegexOpt lengthSecondsPat webpage),
                formats := assembleFormats sortF videoId downloadPage webpage streams }

/-- Observation used by theorem statements: the `(format_id, url)` pair of
the last entry of a successful result's formats list. -/
def lastFormatIdUrl (e : Except ExtractError ExtractionResult) : Option (String × String) :=
  match e with
  | Except.ok r => r.formats.getLast?.map (fun f => (f.format_id, f.url))
  | Except.error _ => none

/-- Observation used by theorem statements: the format ids of a successful
result, in order. -/
def okFormatIds (e : Except ExtractError ExtractionResult) : Option (List String) :=
  match e with
  | Except.ok r => some (r.formats.map (fun f => f.format_id))
  | Except.error _ => none

/-- Observation used by theorem statements: title and duration of a
successful result. -/
def okTitleDuration (e : Except ExtractError ExtractionResult) :
    Option (String × Option Int) :=
  match e with
  | Except.ok r => some (r.title, r.duration)
  | Except.error _ => none

/-- Observation used by theorem statements: how many entries of a successful
result carry the sentinel format id `Original`. -/
def countOriginal (e : Except ExtractError ExtractionResult) : Option Nat :=
  match e with
  | Except.ok r => some (r.formats.countP (fun f => f.format_id == "Original"))
  | Except.error _ => none

/-- Observation used by theorem statements: number of entries of a successful
format-list parse. -/
def parsedCount (e : Except ExtractError (List FormatDescriptor)) : Option Nat :=
  match e with
  | Except.ok l => some l.length
  | Except.error _ => none

deriving instance DecidableEq for Except

/-- Concrete metadata document used by witnesses: title, length_seconds and
one well-formed fmt_stream_map / fmt_list pair. -/
def W1 : String :=
  "\"title\",\"Big Buck Bunny.mp4\",\"length_seconds\",\"45\",\"fmt_stream_map\",\"18|http://e/a\",\"fmt_list\",\"18/640x360\"\n"

/-- Concrete metadata document whose two stream entries repeat format id 18. -/
def W7 : String :=
  "\"title\",\"T\",\"fmt_stream_map\",\"18|http://e/a,18|http://e/b\",\"fmt_list\",\"18/640x360,18/640x360\"\n"

/-! Helper lemmas shared by the claim theorems. -/

theorem getLast?_append_singleton (l : List α) (a : α) :
    (l ++ [a]).getLast? = some a := by
  induction l with
  | nil => rfl
  | cons b l ih =>
    rw [List.cons_append, List.getLast?_cons, ih]
    cases l <;> rfl

theorem unpack2_ok (l : List (List Char)) (a b : List Char)
    (h : unpack2 l = Except.ok (a, b)) : l = [a, b] := by
  unfold unpack2 at h
  split at h
  · rename_i x y
    cases h
    rfl
  · cases h

theorem unpack2_not_two (l : List (List Char)) (h : l.length ≠ 2) :
    unpack2 l = Except.error (ExtractError.valueError "unpack") := by
  unfold unpack2
  split
  · rename_i x y
    simp at h
  · rfl

theorem buildFormat_ok (p : String × String) (f : FormatDescriptor)
    (h : buildFormat p = Except.ok f) :
    pySplit '|' p.2.data = [f.format_id.data, f.url.data] ∧
    ∃ e, lookupExt f.format_id = Except.ok e ∧ f.ext = some e := by
  unfold buildFormat at h
  split at h
  · cases h
  · rename_i fid furl hunpack
    split at h
    · cases h
    · rename_i res hres
      split at h
      · cases h
      · rename_i w hgt hx
        split at h
        · cases h
        · rename_i e hlookup
          cases h
          exact ⟨unpack2_ok _ _ _ hunpack, e, hlookup, rfl⟩

theorem buildFormats_ok (l : List (String × String))
    (h : ∀ p ∈ l, ∃ s, buildFormat p = Except.ok s) :
    ∃ out, buildFormats l = Except.ok out ∧ out.length = l.length ∧
      ∀ i p f, l.get? i = some p → out.get? i = some f → buildFormat p = Except.ok f := by
  induction l with
  | nil =>
    refine ⟨[], rfl, rfl, ?_⟩
    intro i p f hp _
    cases i <;> cases hp
  | cons a as ih =>
    obtain ⟨s, hs⟩ := h a (List.mem_cons_self a as)
    obtain ⟨out, hout, hlen, hrel⟩ := ih (fun p hp => h p (List.mem_cons_of_mem a hp))
    refine ⟨s :: out, ?_, by simp [hlen], ?_⟩
    · unfold buildFormats
      rw [hs, hout]
    · intro i p f hp hf
      cases i with
      | zero =>
        cases hp
        cases hf
        exact hs
      | succ n => exact hrel n p f hp hf

theorem buildFormats_mem (l : List (String × String)) (out : List FormatDescriptor)
    (h : buildFormats l = Except.ok out) :
    ∀ f ∈ out, ∃ p ∈ l, buildFormat p = Except.ok f := by
  induction l generalizing out with
  | nil =>
    cases h
    intro f hf
    cases hf
  | cons a as ih =>
    unfold buildFormats at h
    split at h
    · cases h
    · rename_i s hs
      split at h
      · cases h
      · rename_i rest hrest
        cases h
        intro f hf
        rcases List.mem_cons.mp hf with hfa | hfr
        · exact ⟨a, List.mem_cons_self a as, hfa ▸ hs⟩
        · obtain ⟨p, hp, hbf⟩ := ih rest hrest f hfr
          exact ⟨p, List.mem_cons_of_mem a hp, hbf⟩

theorem buildFormats_abort (fmt stream : String) (e : ExtractError)
    (hbad : buildFormat (fmt, stream) = Except.error e) :
    ∀ pre rest, (∀ p ∈ pre, ∃ s, buildFormat p = Except.ok s) →
      buildFormats (pre ++ (fmt, stream) :: rest) = Except.error e := by
  intro pre
  induction pre with
  | nil =>
    intro rest _
    rw [List.nil_append]
    unfold buildFormats
    rw [hbad]
  | cons a as ih =>
    intro rest hok
    obtain ⟨s, hs⟩ := hok a (List.mem_cons_self a as)
    rw [List.cons_append]
    unfold buildFormats
    rw [hs, ih rest (fun p hp => hok p (List.mem_cons_of_mem a hp))]

theorem real_extract_ok (sortF : List FormatDescriptor → List FormatDescriptor)
    (videoId webpage downloadPage : String) (th : Option String) (r : ExtractionResult)
    (h : real_extract sortF videoId webpage downloadPage th = Except.ok r) :
    searchRegexOpt reasonPat webpage = none ∧
    ∃ title fsm fl streams,
      searchRegexReq titlePat webpage "title" = Except.ok title ∧
      searchRegexReq fsmPat webpage "fmt stream map" = Except.ok fsm ∧
      searchRegexReq flPat webpage "fmt_list" = Except.ok fl ∧
      parseFormats ((pySplit ',' fl.data).map String.mk)
          ((pySplit ',' fsm.data).map String.mk) = Except.ok streams ∧
      r = { id := videoId, title := title, thumbnail := th,
            duration := int_or_none (searchRegexOpt lengthSecondsPat webpage),
            formats := assembleFormats sortF videoId downloadPage webpage streams } := by
  unfold real_extract at h
  split at h
  · cases h
  · rename_i hreason
    split at h
    · cases h
    · rename_i title htitle
      split at h
      · cases h
      · rename_i fsm hfsm
        split at h
        · cases h
        · rename_i fl hfl
          split at h
          · cases h
          · rename_i streams hstreams
            cases h
            exact ⟨hreason, title, fsm, fl, streams, htitle, hfsm, hfl, hstreams, rfl⟩

theorem unpack2_pair (a b : List Char) : unpack2 [a, b] = Except.ok (a, b) := rfl

theorem pySplit_no_sep (sep : Char) (l : List Char) (h : l.contains sep = false) :
    pySplit sep l = [l] := by
  induction l with
  | nil => rfl
  | cons c cs ih =>
    simp only [List.contains_cons, Bool.or_eq_false_iff] at h
    obtain ⟨hc, hcs⟩ := h
    have hcne : ¬ c = sep := fun hEq => (ne_of_beq_false hc) hEq.symm
    simp only [pySplit, ih hcs, if_neg hcne]

/-! Claim theorems. -/

/-- C3: a metadata document containing a `"reason","<text>"` field makes
extraction abort with an `ExtractorError` carrying the provider's reason text
verbatim, with no assumption on any other field of the document — the check
precedes every other field read. -/
theorem c3_reason_aborts (sortF : List FormatDescriptor → List FormatDescriptor)
    (videoId webpage downloadPage : String) (th : Option String) (reason : String)
    (h : searchRegexOpt reasonPat webpage = some reason) :
    real_extract sortF videoId webpage downloadPage th
      = Except.error (ExtractError.extractorError reason) := by
  simp only [real_extract, h]

/-- Witness for C3: a document whose only field is the reason — title and the
format maps are absent, i.e. every other field is malformed — still aborts
with the provider's text. -/
theorem c3_witness :
    real_extract (fun l => l) "0BVid" "\"reason\",\"File removed\"" "BINARYDATA" none
      = Except.error (ExtractError.extractorError "File removed") :=
  c3_reason_aborts (fun l => l) "0BVid" "\"reason\",\"File removed\"" "BINARYDATA" none
    "File removed" rfl

/-- C4 counterexample: a fmt_list resolution lacking the `x` separator does
not yield absent width/height — the format parse fails with the unhandled
`ValueError` of the tuple unpacking `width, height = resolution.split('x')`. -/
theorem c4_cex :
    buildFormat ("18/1280", "18|http://e/v")
      = Except.error (ExtractError.valueError "unpack") := rfl

/-- C4 amended: `"1280x720"` yields width 1280 and height 720, and
non-numeric fields on either side of a single `x` yield absent width/height
rather than failure; but a resolution whose split on `x` does not have
exactly two fields (e.g. no `x` at all) raises an unhandled ValueError
instead of yielding absent width/height. -/
theorem c4_amended :
    buildFormat ("18/1280x720", "18|http://e/v") = Except.ok
      { url := "http://e/v", format_id := "18", resolution := some "1280x720",
        width := some 1280, height := some 720, ext := some "mp4",
        filesize := none, protocol := none }
    ∧ buildFormat ("18/12a0x7b0", "18|http://e/v") = Except.ok
      { url := "http://e/v", format_id := "18", resolution := some "12a0x7b0",
        width := none, height := none, ext := some "mp4",
        filesize := none, protocol := none }
    ∧ ∀ (fmt stream : String) (idc uc res : List Char),
        pySplit '|' stream.data = [idc, uc] →
        pyIndex (pySplit '/' fmt.data) 1 = Except.ok res →
        (pySplit 'x' res).length ≠ 2 →
        buildFormat (fmt, stream) = Except.error (ExtractError.valueError "unpack") := by
  refine ⟨rfl, rfl, ?_⟩
  intro fmt stream idc uc res h1 h2 h3
  simp only [buildFormat, h1, unpack2_pair, h2, unpack2_not_two _ h3]

/-- Witness for C4 amended: the no-`x` branch at the concrete entry
`22/640`. -/
theorem c4_witness :
    buildFormat ("22/640", "22|http://e/v")
      = Except.error (ExtractError.valueError "unpack") :=
  c4_amended.2.2 "22/640" "22|http://e/v" "22".data "http://e/v".data "640".data
    rfl rfl (by decide)

/-- C6 counterexample: a fmt_stream entry whose url component contains a
further `|` is not split on the first `|` only — the split on every `|`
yields three fields and the pair unpacking raises an unhandled ValueError, so
the url is not preserved. -/
theorem c6_cex :
    buildFormat ("37/1280x720", "37|http://e/a|b")
      = Except.error (ExtractError.valueError "unpack") := rfl

/-- C6 amended: a fmt_stream entry is split on every `|` and must yield
exactly two fields (formatId, url); an entry with one `|` splits correctly,
while further `|` characters in the url make the unpacking raise an unhandled
ValueError rather than being preserved in the url field. -/
theorem c6_amended (stream : String) :
    (∀ idc uc, pySplit '|' stream.data = [idc, uc] →
        unpack2 (pySplit '|' stream.data) = Except.ok (idc, uc))
    ∧ (3 ≤ (pySplit '|' stream.data).length →
        unpack2 (pySplit '|' stream.data)
          = Except.error (ExtractError.valueError "unpack")) := by
  constructor
  · intro idc uc h
    rw [h]
    rfl
  · intro h
    exact unpack2_not_two _ (by omega)

/-- Witness for C6 amended: the two-`|` entry makes the unpack fail. -/
theorem c6_witness :
    unpack2 (pySplit '|' ("37|http://e/a|b" : String).data)
      = Except.error (ExtractError.valueError "unpack") :=
  (c6_amended "37|http://e/a|b").2 (by decide)

/-- C9: a parsed stream entry whose formatId is not a key of the static
extension table aborts the format construction — and with it the whole
extraction loop, whatever well-formed entries precede or entries follow —
with an error carrying the offending formatId. -/
theorem c9_unknown_format (fmt stream : String) (idc uc res w h : List Char)
    (h1 : pySplit '|' stream.data = [idc, uc])
    (h2 : pyIndex (pySplit '/' fmt.data) 1 = Except.ok res)
    (h3 : pySplit 'x' res = [w, h])
    (h4 : FORMATS_EXT.lookup (String.mk idc) = none) :
    buildFormat (fmt, stream) = Except.error (ExtractError.keyError (String.mk idc))
    ∧ ∀ pre rest, (∀ p ∈ pre, ∃ s, buildFormat p = Except.ok s) →
        buildFormats (pre ++ (fmt, stream) :: rest)
          = Except.error (ExtractError.keyError (String.mk idc)) := by
  have hb : buildFormat (fmt, stream)
      = Except.error (ExtractError.keyError (String.mk idc)) := by
    simp only [buildFormat, h1, unpack2_pair, h2, h3, lookupExt, h4]
  exact ⟨hb, buildFormats_abort fmt stream _ hb⟩

/-- Witness for C9: format id 99 is not in the table; the loop aborts with an
error naming 99. -/
theorem c9_witness :
    buildFormats [("99/640x360", "99|http://e/v")]
      = Except.error (ExtractError.keyError "99") :=
  (c9_unknown_format "99/640x360" "99|http://e/v" "99".data "http://e/v".data
      "640x360".data "640".data "360".data rfl rfl rfl rfl).2 [] []
    (fun p hp => absurd hp (List.not_mem_nil p))

/-- C10: a fmt_list entry containing no `/` at all makes the format parse
fail with the unhandled out-of-range indexing of `fmt.split('/')[1]` — an
IndexError, not one of the deliberately raised error kinds; having a second
`/`-delimited field is an unchecked precondition. -/
theorem c10_missing_slash (fmt stream : String) (idc uc : List Char)
    (h1 : pySplit '|' stream.data = [idc, uc])
    (h2 : fmt.data.contains '/' = false) :
    buildFormat (fmt, stream) = Except.error ExtractError.indexError := by
  simp only [buildFormat, h1, unpack2_pair, pySplit_no_sep '/' fmt.data h2]
  rfl

/-- Witness for C10: the slash-free fmt_list entry `37`. -/
theorem c10_witness :
    buildFormat ("37", "37|http://e/v") = Except.error ExtractError.indexError :=
  c10_missing_slash "37" "37|http://e/v" "37".data "http://e/v".data rfl rfl

/-- C5: when every positional pair of fmt_list/fmt_stream_map entries parses
(formatIds in the table, entries well-formed), parseFormats succeeds with
exactly min(|fmt_list|, |fmt_stream_map|) entries — i.e. N entries for equal
lengths and silent truncation to the shorter list otherwise — in input
order, entry i being the parse of pair i with the formatId/url split of its
fmt_stream entry. -/
theorem c5_pairing (fl fsm : List String)
    (h : ∀ p ∈ fl.zip fsm, ∃ s, buildFormat p = Except.ok s) :
    ∃ streams, parseFormats fl fsm = Except.ok streams
      ∧ streams.length = min fl.length fsm.length
      ∧ ∀ i p f, (fl.zip fsm).get? i = some p → streams.get? i = some f →
          buildFormat p = Except.ok f
          ∧ pySplit '|' p.2.data = [f.format_id.data, f.url.data] := by
  obtain ⟨out, hout, hlen, hrel⟩ := buildFormats_ok (fl.zip fsm) h
  refine ⟨out, hout, ?_, ?_⟩
  · rw [hlen, List.length_zip]
  · intro i p f hp hf
    have hb := hrel i p f hp hf
    exact ⟨hb, (buildFormat_ok p f hb).1⟩

/-- Witness for C5: two fmt_list entries against one fmt_stream_map entry
silently truncate to one parsed format. -/
theorem c5_witness :
    parsedCount (parseFormats ["18/640x360", "22/1280x720"] ["18|http://e/a"])
      = some 1 := by
  have h : ∀ p ∈ (["18/640x360", "22/1280x720"] : List String).zip
      (["18|http://e/a"] : List String), ∃ s, buildFormat p = Except.ok s := by
    intro p hp
    have hp1 : p ∈ [(("18/640x360" : String), ("18|http://e/a" : String))] := hp
    rw [List.mem_singleton] at hp1
    subst hp1
    exact ⟨_, rfl⟩
  obtain ⟨streams, hs, hlen, -⟩ :=
    c5_pairing ["18/640x360", "22/1280x720"] ["18|http://e/a"] h
  simp [parsedCount, hs, hlen]

/-- C1: when extraction succeeds, a probe body without the `html` marker
classifies BINARY and the last (appended original-file) format entry's url is
the probed direct-download endpoint URL itself; a probe body with the marker
and a `confirm=` token yields as url the retried endpoint URL embedding both
the token and the identifier. -/
theorem c1_probe_resolution (sortF : List FormatDescriptor → List FormatDescriptor)
    (videoId webpage downloadPage : String) (th : Option String)
    (hok : ∃ r, real_extract sortF videoId webpage downloadPage th = Except.ok r) :
    (hasHtmlMarker downloadPage = false →
      lastFormatIdUrl (real_extract sortF videoId webpage downloadPage th)
        = some ("Original", directDownloadUrl videoId))
    ∧ ∀ tok, hasHtmlMarker downloadPage = true →
        searchRegexOpt confirmPat downloadPage = some tok →
        lastFormatIdUrl (real_extract sortF videoId webpage downloadPage th)
          = some ("Original", confirmDownloadUrl tok videoId) := by
  obtain ⟨r, hr⟩ := hok
  obtain ⟨-, title, fsm, fl, streams, -, -, -, -, hrEq⟩ :=
    real_extract_ok sortF videoId webpage downloadPage th r hr
  rw [hr]
  subst hrEq
  constructor
  · intro hH
    simp only [lastFormatIdUrl, assembleFormats, resolveDownload, hH,
      Bool.false_eq_true, if_false, getLast?_append_singleton, Option.map_some]
    rfl
  · intro tok hH hC
    simp only [lastFormatIdUrl, assembleFormats, resolveDownload, hH, hC,
      if_true, getLast?_append_singleton, Option.map_some]
    rfl

/-- Witness for C1: a binary probe body at a full concrete extraction; the
original-file entry is last and carries the probed endpoint URL. -/
theorem c1_witness :
    lastFormatIdUrl (real_extract (fun l => l) "0BVid" W1 "BINARYDATA" none)
      = some ("Original", directDownloadUrl "0BVid") :=
  (c1_probe_resolution (fun l => l) "0BVid" W1 "BINARYDATA" none ⟨_, rfl⟩).1 rfl

/-- C2: an HTML probe body with no `confirm=` token leaves the result intact
and error-free — the extraction returns the parsed title, duration and
exactly the stream-derived formats, with no original-file entry appended. -/
theorem c2_unavailable_soft (sortF : List FormatDescriptor → List FormatDescriptor)
    (videoId webpage downloadPage : String) (th : Option String)
    (title fsm fl : String) (streams : List FormatDescriptor)
    (hreason : searchRegexOpt reasonPat webpage = none)
    (htitle : searchRegexReq titlePat webpage "title" = Except.ok title)
    (hfsm : searchRegexReq fsmPat webpage "fmt stream map" = Except.ok fsm)
    (hfl : searchRegexReq flPat webpage "fmt_list" = Except.ok fl)
    (hstreams : parseFormats ((pySplit ',' fl.data).map String.mk)
        ((pySplit ',' fsm.data).map String.mk) = Except.ok streams)
    (hH : hasHtmlMarker downloadPage = true)
    (hC : searchRegexOpt confirmPat downloadPage = none) :
    real_extract sortF videoId webpage downloadPage th = Except.ok
      { id := videoId, title := title, thumbnail := th,
        duration := int_or_none (searchRegexOpt lengthSecondsPat webpage),
        formats := sortF streams } := by
  simp only [real_extract, hreason, htitle, hfsm, hfl, hstreams,
    assembleFormats, resolveDownload, hH, hC, if_true]

/-- Witness for C2: a permission-denied HTML probe body with no token; title,
duration and the single stream format survive, with no `Original` entry. -/
theorem c2_witness :
    okTitleDuration (real_extract (fun l => l) "0BVid" W1 "<html>denied</html>" none)
      = some ("Big Buck Bunny.mp4", some 45)
    ∧ okFormatIds (real_extract (fun l => l) "0BVid" W1 "<html>denied</html>" none)
      = some ["18"] := by
  rw [c2_unavailable_soft (fun l => l) "0BVid" W1 "<html>denied</html>" none
    "Big Buck Bunny.mp4" _ _ _ rfl rfl rfl rfl rfl rfl rfl]
  exact ⟨rfl, rfl⟩

/-- C7 counterexample: a metadata document repeating format id 18 in both
lists produces two stream entries with the same formatId — the result's
formatId list is not duplicate-free. -/
theorem c7_cex :
    okFormatIds (real_extract (fun l => l) "0BVid" W7 "BINARYDATA" none)
      = some ["18", "18", "Original"]
    ∧ ¬ (["18", "18", "Original"] : List String).Nodup :=
  ⟨rfl, by decide⟩

/-- C7 amended: stream entries take their formatId from the input and may
collide with each other when the input repeats an id, but the `Original`
sentinel never collides with a stream entry: a successful result (for any
permutation-only sorting policy) has at most one entry with formatId
`Original`, and every other entry's formatId is a key of the extension
table. -/
theorem c7_amended (sortF : List FormatDescriptor → List FormatDescriptor)
    (hperm : ∀ l, List.Perm (sortF l) l)
    (videoId webpage downloadPage : String) (th : Option String)
    (r : ExtractionResult)
    (hok : real_extract sortF videoId webpage downloadPage th = Except.ok r) :
    r.formats.countP (fun f => f.format_id == "Original") ≤ 1
    ∧ ∀ f ∈ r.formats, f.format_id ≠ "Original" →
        ∃ e, lookupExt f.format_id = Except.ok e := by
  obtain ⟨-, title, fsm, fl, streams, -, -, -, hstreams, hrEq⟩ :=
    real_extract_ok sortF videoId webpage downloadPage th r hok
  subst hrEq
  have hmem : ∀ f ∈ streams, ∃ e, lookupExt f.format_id = Except.ok e := by
    intro f hf
    obtain ⟨p, hp, hbf⟩ := buildFormats_mem _ _ hstreams f hf
    obtain ⟨-, e, he, -⟩ := buildFormat_ok p f hbf
    exact ⟨e, he⟩
  have hcount : streams.countP (fun f => f.format_id == "Original") = 0 := by
    refine List.countP_eq_zero.mpr ?_
    intro f hf
    obtain ⟨e, he⟩ := hmem f hf
    intro hbeq
    have hfid : f.format_id = "Original" := by
      exact eq_of_beq (by simpa using hbeq)
    rw [hfid] at he
    rw [show lookupExt "Original"
        = Except.error (ExtractError.keyError "Original") from rfl] at he
    cases he
  simp only [assembleFormats]
  cases hdl : resolveDownload videoId downloadPage with
  | none =>
    constructor
    · rw [(hperm streams).countP_eq, hcount]
      omega
    · intro f hf _
      exact hmem f ((hperm streams).mem_iff.mp hf)
  | some dl =>
    constructor
    · rw [List.countP_append, (hperm streams).countP_eq, hcount]
      simp [originalFormat, List.countP_cons]
    · intro f hf hne
      rcases List.mem_append.mp hf with hfs | hfo
      · exact hmem f ((hperm streams).mem_iff.mp hfs)
      · rw [List.mem_singleton] at hfo
        subst hfo
        exact absurd rfl hne

/-- Witness for C7 amended: the duplicate-id document still has exactly one
`Original` entry; the bound is met at a concrete successful extraction. -/
theorem c7_amended_witness :
    (countOriginal (real_extract (fun l => l) "0BVid" W7 "BINARYDATA" none)).getD 2
      ≤ 1 :=
  (c7_amended (fun l => l) (fun l => List.Perm.refl l) "0BVid" W7 "BINARYDATA" none
    _ rfl).1

/-- C8: with no provider reason present, a metadata document missing the
title, the fmt_stream_map or the fmt_list field makes extraction abort as a
hard failure — an error, never a partial result. -/
theorem c8_missing_required (sortF : List FormatDescriptor → List FormatDescriptor)
    (videoId webpage downloadPage : String) (th : Option String)
    (hreason : searchRegexOpt reasonPat webpage = none)
    (hmiss : searchRegexOpt titlePat webpage = none
           ∨ searchRegexOpt fsmPat webpage = none
           ∨ searchRegexOpt flPat webpage = none) :
    ∃ name, real_extract sortF videoId webpage downloadPage th
      = Except.error (ExtractError.regexNotFound name) := by
  cases htitle : searchRegexOpt titlePat webpage with
  | none =>
    refine ⟨"title", ?_⟩
    simp only [real_extract, hreason, searchRegexReq, htitle]
  | some t =>
    cases hfsm : searchRegexOpt fsmPat webpage with
    | none =>
      refine ⟨"fmt stream map", ?_⟩
      simp only [real_extract, hreason, searchRegexReq, htitle, hfsm]
    | some m =>
      cases hfl : searchRegexOpt flPat webpage with
      | none =>
        refine ⟨"fmt_list", ?_⟩
        simp only [real_extract, hreason, searchRegexReq, htitle, hfsm, hfl]
      | some l =>
        rcases hmiss with hmiss | hmiss | hmiss
        · rw [hmiss] at htitle
          cases htitle
        · rw [hmiss] at hfsm
          cases hfsm
        · rw [hmiss] at hfl
          cases hfl

/-- Witness for C8: a document with none of the required fields aborts with
no result. -/
theorem c8_witness :
    okFormatIds (real_extract (fun l => l) "0BVid" "no fields here" "BINARYDATA" none)
      = none := by
  obtain ⟨name, hname⟩ := c8_missing_required (fun l => l) "0BVid" "no fields here"
    "BINARYDATA" none rfl (Or.inl rfl)
  rw [hname]
  rfl
